import Mathlib

/-!
Shallow embedding of `src/nio/crypto/key_verification_framework.py`
(the key-verification transaction state machine of matrix-nio) and proofs
of the specification claims about it.

Python mutation is modelled by explicit state passing: every method of
`KeyVerificationFramework` becomes a Lean function from the transaction
record to a pair of (result-or-error, post-state).  Since the Python code
never mutates `self` before a `raise`, every error branch returns the
input record unchanged, exactly mirroring the source.
-/

/-- Modelled from the spec: `OlmDevice` lives in `nio/crypto/device.py`,
which is not under `src/`.  Per the spec's data model, a Device is
`user_id`, `device_id` and an opaque key reference; equality is by
`(user_id, device_id)`, so the opaque key material is omitted. -/
structure OlmDevice where
  user_id : String
  device_id : String
deriving DecidableEq, Repr

/-- Modelled from the spec: the `device.id` accessor used by the framework
code returns the device id. -/
def OlmDevice.id (d : OlmDevice) : String :=
  d.device_id

/-- Values that appear in outbound message content dictionaries:
strings, integers (the timestamp) and lists of strings (methods). -/
inductive ContentValue where
  | str (s : String)
  | num (n : Nat)
  | strs (l : List String)
deriving DecidableEq, Repr

/-- Modelled from the spec: `ToDeviceMessage` lives in `nio/event_builders`,
which is not under `src/`.  Per the spec's `OutboundMessage`, it carries the
wire event type, the target user, the target device and the content
dictionary (modelled as an association list). -/
structure ToDeviceMessage where
  event_type : String
  recipient : String
  recipient_device : String
  content : List (String × ContentValue)
deriving DecidableEq, Repr

/-- `KVFState`: the five states of the verification state machine. -/
inductive KVFState where
  | CREATED
  | REQUESTED
  | READY
  | CANCELED
  | DONE
deriving DecidableEq, Repr

/-- Errors a framework operation can raise.  The Python code raises
`LocalProtocolError(message)` at every explicit check; an out-of-bounds
list access (`self.devices[0]` on an empty list) would raise `IndexError`,
modelled by a separate constructor. -/
inductive KVFError where
  | localProtocolError (message : String)
  | indexError
deriving DecidableEq, Repr

/-- The mutable attributes of a `KeyVerificationFramework` object. -/
structure KeyVerificationFramework where
  state : KVFState
  own_device : String
  devices : List OlmDevice
  we_requested_it : Bool
  transaction_id : String
deriving DecidableEq, Repr

/-- Modelled from the spec: `Sas._sas_method_v1` lives in `nio/crypto/sas.py`,
which is not under `src/`; it is the single supported-method identifier put
into the `methods` list of request/ready messages. -/
def Sas_sas_method_v1 : String := "m.sas.v1"

namespace KeyVerificationFramework

/-- The class attribute `_user_cancel_error`. -/
def _user_cancel_error : String × String :=
  ("m.user", "Canceled by user")

/-- The class attribute `_user_accepted_reason`. -/
def _user_accepted_reason : String × String :=
  ("m.accepted", "Key verification request was accepted by another device.")

/-- `__init__(own_device, transaction_id=None)`.  The fresh `uuid4()`
string used when no transaction id is supplied is passed in explicitly. -/
def init (own_device : String) (transaction_id : Option String)
    (uuid : String) : KeyVerificationFramework :=
  { state := KVFState.CREATED
    own_device := own_device
    devices := []
    we_requested_it := true
    transaction_id :=
      match transaction_id with
      | none => uuid
      | some tid => tid }

/-- The classmethod `from_key_verification_request`. -/
def from_key_verification_request (own_device : String)
    (transaction_id : String) (requesting_device : OlmDevice) :
    KeyVerificationFramework :=
  let obj := init own_device (some transaction_id) ""
  { obj with
    we_requested_it := false
    state := KVFState.REQUESTED
    devices := obj.devices ++ [requesting_device] }

/-- The `done` property. -/
def isDone (t : KeyVerificationFramework) : Bool :=
  t.state = KVFState.DONE

/-- The `canceled` property. -/
def isCanceled (t : KeyVerificationFramework) : Bool :=
  t.state = KVFState.CANCELED

/-- `request_verification(device)`.  The wall-clock millisecond timestamp
`time_ns() // 1_000_000` is passed in explicitly as `now_ms`. -/
def request_verification (t : KeyVerificationFramework) (device : OlmDevice)
    (now_ms : Nat) :
    Except KVFError ToDeviceMessage × KeyVerificationFramework :=
  if t.we_requested_it = false then
    (Except.error (KVFError.localProtocolError
      "Request was not started by us, can\x27t start another request."), t)
  else if t.state ≠ KVFState.CREATED ∧ t.state ≠ KVFState.REQUESTED then
    (Except.error (KVFError.localProtocolError
      "Key verification request with the transaction id \x7btransaction_id\x7d already accepted."), t)
  else if device ∈ t.devices then
    (Except.error (KVFError.localProtocolError
      ("Already requested device " ++ device.device_id ++ ".")), t)
  else
    let t' := { t with
      state := KVFState.REQUESTED
      devices := t.devices ++ [device] }
    (Except.ok
      { event_type := "m.key.verification.request"
        recipient := device.user_id
        recipient_device := device.id
        content :=
          [("from_device", ContentValue.str t'.own_device),
           ("methods", ContentValue.strs [Sas_sas_method_v1]),
           ("transaction_id", ContentValue.str t'.transaction_id),
           ("timestamp", ContentValue.num now_ms)] }, t')

/-- `accept_verification_request()`. -/
def accept_verification_request (t : KeyVerificationFramework) :
    Except KVFError ToDeviceMessage × KeyVerificationFramework :=
  if t.we_requested_it = true then
    (Except.error (KVFError.localProtocolError
      "Verification request was send by us, can\x27t accept offer."), t)
  else if t.state = KVFState.CANCELED then
    (Except.error (KVFError.localProtocolError
      "Request was canceled before receiving ready message."), t)
  else if t.state ≠ KVFState.REQUESTED then
    (Except.error (KVFError.localProtocolError "Request already accepted."), t)
  else
    match t.devices with
    | [] => (Except.error KVFError.indexError, t)
    | other_device :: _ =>
      (Except.ok
        { event_type := "m.key.verification.ready"
          recipient := other_device.user_id
          recipient_device := other_device.id
          content :=
            [("from_device", ContentValue.str t.own_device),
             ("methods", ContentValue.strs [Sas_sas_method_v1]),
             ("transaction_id", ContentValue.str t.transaction_id)] },
       { t with state := KVFState.READY })

/-- `_create_cancel_message(other_device, reason)`. -/
def _create_cancel_message (t : KeyVerificationFramework)
    (other_device : OlmDevice) (reason : String × String) : ToDeviceMessage :=
  { event_type := "m.key.verification.cancel"
    recipient := other_device.user_id
    recipient_device := other_device.id
    content :=
      [("code", ContentValue.str reason.1),
       ("reason", ContentValue.str reason.2),
       ("transaction_id", ContentValue.str t.transaction_id)] }

/-- `verification_request_accepted(accepting_device)`. -/
def verification_request_accepted (t : KeyVerificationFramework)
    (accepting_device : OlmDevice) :
    Except KVFError (List ToDeviceMessage) × KeyVerificationFramework :=
  if t.we_requested_it = false then
    (Except.error (KVFError.localProtocolError
      ("Request was not initialized by us, but we received an unexpected ready message from device: "
        ++ accepting_device.device_id)), t)
  else if t.state = KVFState.CREATED then
    (Except.error (KVFError.localProtocolError
      "Cannot accept before sending a request."), t)
  else if t.state = KVFState.CANCELED then
    (Except.error (KVFError.localProtocolError
      "Request was canceled before receiving ready message."), t)
  else if t.state ≠ KVFState.REQUESTED then
    (Except.error (KVFError.localProtocolError "Request already accepted."), t)
  else if accepting_device ∉ t.devices then
    (Except.error (KVFError.localProtocolError
      ("Received key verification ready from unknown device: "
        ++ accepting_device.device_id)), t)
  else
    (Except.ok
      ((t.devices.filter (fun device => accepting_device ≠ device)).map
        (fun device => _create_cancel_message t device _user_accepted_reason)),
     { t with
       devices := [accepting_device]
       state := KVFState.READY })

/-- `cancel_verification(other_device)`.  Note: the Python method never
uses its `other_device` argument. -/
def cancel_verification (t : KeyVerificationFramework)
    (other_device : OlmDevice) :
    Except KVFError (List ToDeviceMessage) × KeyVerificationFramework :=
  if t.state = KVFState.DONE then
    (Except.error (KVFError.localProtocolError
      "Verification already done, can\x27t cancel it afterwards."), t)
  else if t.state = KVFState.CANCELED then
    (Except.error (KVFError.localProtocolError
      "Verification request already canceled."), t)
  else
    let t' := { t with state := KVFState.CANCELED }
    (Except.ok
      (t'.devices.map
        (fun device => _create_cancel_message t' device _user_cancel_error)),
     t')

/-- `process_cancellation()`. -/
def process_cancellation (t : KeyVerificationFramework) :
    Except KVFError (List ToDeviceMessage) × KeyVerificationFramework :=
  if t.state = KVFState.CANCELED then
    (Except.error (KVFError.localProtocolError
      "Key verification already canceled"), t)
  else if t.state = KVFState.DONE then
    (Except.error (KVFError.localProtocolError
      "We cannot cancel finished key verifications."), t)
  else
    let t' := { t with state := KVFState.CANCELED }
    if t'.we_requested_it = false then
      (Except.ok [], t')
    else
      (Except.ok
        (t'.devices.map
          (fun device => _create_cancel_message t' device _user_cancel_error)),
       t')

/-- `verification_done()`. -/
def verification_done (t : KeyVerificationFramework) :
    Except KVFError ToDeviceMessage × KeyVerificationFramework :=
  if t.state = KVFState.CANCELED then
    (Except.error (KVFError.localProtocolError
      "Key verification was canceled before finished"), t)
  else if t.state = KVFState.DONE then
    (Except.error (KVFError.localProtocolError
      "Key verification already finished"), t)
  else if t.state ≠ KVFState.READY then
    (Except.error (KVFError.localProtocolError
      "Key verification not finished"), t)
  else
    match t.devices with
    | [] => (Except.error KVFError.indexError, t)
    | d :: _ =>
      (Except.ok
        { event_type := "m.key.verification.done"
          recipient := d.user_id
          recipient_device := d.id
          content := [("transaction_id", ContentValue.str t.transaction_id)] },
       { t with state := KVFState.DONE })

end KeyVerificationFramework

open KeyVerificationFramework

/-- One externally triggered operation of the public API, as named by the
spec: `request` = `request_verification`, `accept` =
`accept_verification_request`, `peerAccepted` =
`verification_request_accepted`, `cancel` = `cancel_verification`,
`peerCanceled` = `process_cancellation`, `complete` = `verification_done`. -/
inductive Op where
  | request (device : OlmDevice) (now_ms : Nat)
  | accept
  | peerAccepted (device : OlmDevice)
  | cancel (device : OlmDevice)
  | peerCanceled
  | complete
deriving DecidableEq, Repr

/-- Post-state of one operation (the transaction after the Python call,
whether it raised or returned). -/
def step (t : KeyVerificationFramework) : Op → KeyVerificationFramework
  | Op.request d now => (request_verification t d now).2
  | Op.accept => (accept_verification_request t).2
  | Op.peerAccepted d => (verification_request_accepted t d).2
  | Op.cancel d => (cancel_verification t d).2
  | Op.peerCanceled => (process_cancellation t).2
  | Op.complete => (verification_done t).2

/-- Result of one operation, with single-message operations wrapped into a
one-element list so all operations are comparable. -/
def emitted (t : KeyVerificationFramework) :
    Op → Except KVFError (List ToDeviceMessage)
  | Op.request d now => (request_verification t d now).1.map (fun m => [m])
  | Op.accept => (accept_verification_request t).1.map (fun m => [m])
  | Op.peerAccepted d => (verification_request_accepted t d).1
  | Op.cancel d => (cancel_verification t d).1
  | Op.peerCanceled => (process_cancellation t).1
  | Op.complete => (verification_done t).1.map (fun m => [m])

/-- Transactions reachable through the public API: created by the
constructor or by `from_key_verification_request`, then driven by any
sequence of operations (failed operations leave the state unchanged, so
including them changes nothing). -/
inductive Reachable : KeyVerificationFramework → Prop where
  | init : ∀ (own : String) (tid : Option String) (uuid : String),
      Reachable (KeyVerificationFramework.init own tid uuid)
  | fromRequest : ∀ (own tid : String) (d : OlmDevice),
      Reachable (from_key_verification_request own tid d)
  | step : ∀ (t : KeyVerificationFramework) (op : Op),
      Reachable t → Reachable (step t op)

/-- Classification of an error as the spec's `RoleViolation` kind: the
message of one of the three role checks (the third embeds the offending
device id). -/
def IsRoleViolation : KVFError → Prop
  | KVFError.localProtocolError m =>
      m = "Request was not started by us, can\x27t start another request." ∨
      m = "Verification request was send by us, can\x27t accept offer." ∨
      ∃ d : String,
        m = "Request was not initialized by us, but we received an unexpected ready message from device: "
          ++ d
  | KVFError.indexError => False

/-- The messages of the state-precondition checks. -/
def invalidStateMessages : List String :=
  ["Key verification request with the transaction id \x7btransaction_id\x7d already accepted.",
   "Request was canceled before receiving ready message.",
   "Request already accepted.",
   "Cannot accept before sending a request.",
   "Verification already done, can\x27t cancel it afterwards.",
   "Verification request already canceled.",
   "Key verification already canceled",
   "We cannot cancel finished key verifications.",
   "Key verification was canceled before finished",
   "Key verification already finished",
   "Key verification not finished"]

/-- Classification of an error as the spec's `InvalidStateTransition` kind. -/
def IsInvalidStateTransition : KVFError → Prop
  | KVFError.localProtocolError m => m ∈ invalidStateMessages
  | KVFError.indexError => False

instance (e : KVFError) : Decidable (IsInvalidStateTransition e) := by
  cases e with
  | localProtocolError m => exact (inferInstance : Decidable (m ∈ invalidStateMessages))
  | indexError => exact (inferInstance : Decidable False)

/-- Classification of an error as the spec's `UnknownDevice` kind: the
roster-membership check's message, which embeds the offending device id. -/
def IsUnknownDevice : KVFError → Prop
  | KVFError.localProtocolError m =>
      ∃ d : String,
        m = "Received key verification ready from unknown device: " ++ d
  | KVFError.indexError => False

/-- Which operations the spec's role table permits to each role
(`we_requested_it = true` is the Initiator). -/
def opPermitted (we_requested_it : Bool) : Op → Bool
  | Op.request _ _ => we_requested_it
  | Op.accept => !we_requested_it
  | Op.peerAccepted _ => we_requested_it
  | Op.cancel _ => true
  | Op.peerCanceled => true
  | Op.complete => true

/-- The roster/role invariant maintained by the state machine: the roster
is non-empty in `REQUESTED`, has exactly one element in `READY`/`DONE`,
a Responder transaction never holds more than one device, and the roster
never contains duplicates. -/
def KVFInv (t : KeyVerificationFramework) : Prop :=
  (t.state = KVFState.REQUESTED → t.devices ≠ []) ∧
  ((t.state = KVFState.READY ∨ t.state = KVFState.DONE) → t.devices.length = 1) ∧
  (t.we_requested_it = false → t.devices.length ≤ 1) ∧
  t.devices.Nodup

theorem inv_request (t : KeyVerificationFramework) (d : OlmDevice) (now : Nat)
    (h : KVFInv t) : KVFInv (request_verification t d now).2 := by
  unfold request_verification
  split_ifs with h1 h2 h3
  · exact h
  · exact h
  · exact h
  · obtain ⟨i1, i2, i3, i4⟩ := h
    refine ⟨?_, ?_, ?_, ?_⟩
    · intro _
      simp
    · intro hc
      simp at hc
    · intro hc
      exact absurd hc h1
    · simp [List.nodup_append, i4]
      exact h3

theorem inv_accept (t : KeyVerificationFramework)
    (h : KVFInv t) : KVFInv (accept_verification_request t).2 := by
  unfold accept_verification_request
  split_ifs with h1 h2 h3
  · exact h
  · exact h
  · exact h
  · obtain ⟨i1, i2, i3, i4⟩ := h
    rcases hds : t.devices with _ | ⟨d0, rest⟩
    · simpa [hds] using ⟨i1, i2, i3, i4⟩
    · have hwr : t.we_requested_it = false := by
        cases hb : t.we_requested_it
        · rfl
        · exact absurd hb h1
      have hlen : t.devices.length ≤ 1 := i3 hwr
      rw [hds] at hlen
      simp at hlen
      refine ⟨?_, ?_, ?_, ?_⟩
      · intro hc
        simp at hc
      · intro _
        simp [hds, hlen]
      · intro _
        simp [hds, hlen]
      · rw [hds] at i4
        simpa using i4

theorem inv_peerAccepted (t : KeyVerificationFramework) (d : OlmDevice)
    (h : KVFInv t) : KVFInv (verification_request_accepted t d).2 := by
  unfold verification_request_accepted
  split_ifs with h1 h2 h3 h4 h5
  any_goals exact h
  refine ⟨?_, ?_, ?_, ?_⟩
  · intro hc
    simp at hc
  · intro _
    simp
  · intro _
    simp
  · simp

theorem inv_cancel (t : KeyVerificationFramework) (d : OlmDevice)
    (h : KVFInv t) : KVFInv (cancel_verification t d).2 := by
  obtain ⟨i1, i2, i3, i4⟩ := h
  unfold cancel_verification
  split_ifs with h1 h2
  · exact ⟨i1, i2, i3, i4⟩
  · exact ⟨i1, i2, i3, i4⟩
  · refine ⟨?_, ?_, ?_, ?_⟩
    · intro hc
      simp at hc
    · intro hc
      simp at hc
    · intro hc
      simp at hc
      simpa using i3 hc
    · simpa using i4

theorem inv_peerCanceled (t : KeyVerificationFramework)
    (h : KVFInv t) : KVFInv (process_cancellation t).2 := by
  obtain ⟨i1, i2, i3, i4⟩ := h
  unfold process_cancellation
  split_ifs with h1 h2
  · exact ⟨i1, i2, i3, i4⟩
  · exact ⟨i1, i2, i3, i4⟩
  · dsimp only
    split_ifs with h3
    · refine ⟨?_, ?_, ?_, ?_⟩
      · intro hc
        simp at hc
      · intro hc
        simp at hc
      · intro hc
        simp at hc
        simpa using i3 hc
      · simpa using i4
    · refine ⟨?_, ?_, ?_, ?_⟩
      · intro hc
        simp at hc
      · intro hc
        simp at hc
      · intro hc
        simp at hc
        simpa using i3 hc
      · simpa using i4

theorem inv_complete (t : KeyVerificationFramework)
    (h : KVFInv t) : KVFInv (verification_done t).2 := by
  unfold verification_done
  split_ifs with h1 h2 h3
  · exact h
  · exact h
  · exact h
  · obtain ⟨i1, i2, i3, i4⟩ := h
    have hready : t.state = KVFState.READY := by
      by_contra hc
      exact h3 hc
    have hlen : t.devices.length = 1 := i2 (Or.inl hready)
    rcases hds : t.devices with _ | ⟨d0, rest⟩
    · rw [hds] at hlen
      simp at hlen
    · rw [hds] at hlen
      simp at hlen
      refine ⟨?_, ?_, ?_, ?_⟩
      · intro hc
        simp at hc
      · intro _
        simp [hds, hlen]
      · intro _
        simp [hds, hlen]
      · rw [hds] at i4
        simpa using i4

theorem inv_step (t : KeyVerificationFramework) (op : Op)
    (h : KVFInv t) : KVFInv (step t op) := by
  cases op with
  | request d now => exact inv_request t d now h
  | accept => exact inv_accept t h
  | peerAccepted d => exact inv_peerAccepted t d h
  | cancel d => exact inv_cancel t d h
  | peerCanceled => exact inv_peerCanceled t h
  | complete => exact inv_complete t h

theorem reachable_inv (t : KeyVerificationFramework) (ht : Reachable t) :
    KVFInv t := by
  induction ht with
  | init own tid uuid =>
    refine ⟨?_, ?_, ?_, ?_⟩ <;> simp [KeyVerificationFramework.init]
  | fromRequest own tid d =>
    refine ⟨?_, ?_, ?_, ?_⟩ <;>
      simp [from_key_verification_request, KeyVerificationFramework.init]
  | step t op _ ih => exact inv_step t op ih

/-! Concrete fixtures used by witnesses and counterexamples: the literal
scenario of the spec (Initiator `A1` broadcasting to Bob's two devices). -/

def devA : OlmDevice := { user_id := "@alice:example.org", device_id := "A1" }

def devB1 : OlmDevice := { user_id := "@bob:example.org", device_id := "B1" }

def devB2 : OlmDevice := { user_id := "@bob:example.org", device_id := "B2" }

def tCreated : KeyVerificationFramework :=
  KeyVerificationFramework.init "A1" (some "tid") "uuid"

def tRequested2 : KeyVerificationFramework :=
  step (step tCreated (Op.request devB1 0)) (Op.request devB2 1)

def tReadyI : KeyVerificationFramework :=
  step tRequested2 (Op.peerAccepted devB1)

def tDoneI : KeyVerificationFramework :=
  step tReadyI Op.complete

def tResp : KeyVerificationFramework :=
  from_key_verification_request "B1" "tid" devA

theorem tCreated_reachable : Reachable tCreated :=
  Reachable.init "A1" (some "tid") "uuid"

theorem tRequested2_reachable : Reachable tRequested2 :=
  Reachable.step _ _ (Reachable.step _ _ tCreated_reachable)

theorem tReadyI_reachable : Reachable tReadyI :=
  Reachable.step _ _ tRequested2_reachable

theorem tDoneI_reachable : Reachable tDoneI :=
  Reachable.step _ _ tReadyI_reachable

theorem tResp_reachable : Reachable tResp :=
  Reachable.fromRequest "B1" "tid" devA

/-! ## Helper lemmas for the claims -/

theorem length_filter_ne {l : List OlmDevice} {d : OlmDevice}
    (hn : l.Nodup) (hd : d ∈ l) :
    (l.filter (fun x => d ≠ x)).length = l.length - 1 := by
  induction l with
  | nil => simp at hd
  | cons a tl ih =>
    have hn' := List.nodup_cons.mp hn
    rw [List.filter_cons]
    by_cases hda : d = a
    · subst hda
      have hcond : (decide (d ≠ d)) = false := by simp
      rw [hcond]
      have hfilter : tl.filter (fun x => d ≠ x) = tl := by
        apply List.filter_eq_self.mpr
        intro x hx
        have hne : d ≠ x := fun hdx => hn'.1 (hdx ▸ hx)
        simpa using hne
      simp only [Bool.false_eq_true, if_false, hfilter, List.length_cons,
        Nat.add_sub_cancel]
    · have hdtl : d ∈ tl := by
        rcases List.mem_cons.mp hd with h | h
        · exact absurd h hda
        · exact h
      have hcond : (decide (d ≠ a)) = true := by simpa using hda
      rw [hcond]
      have ihh := ih hn'.2 hdtl
      have hpos : 1 ≤ tl.length :=
        List.length_pos.mpr (List.ne_nil_of_mem hdtl)
      simp only [eq_self_iff_true, if_true, List.length_cons, ihh]
      omega

theorem verification_request_accepted_ok (t : KeyVerificationFramework)
    (d : OlmDevice) (hrole : t.we_requested_it = true)
    (hstate : t.state = KVFState.REQUESTED) (hd : d ∈ t.devices) :
    verification_request_accepted t d =
      (Except.ok ((t.devices.filter (fun x => d ≠ x)).map
        (fun x => _create_cancel_message t x _user_accepted_reason)),
       { t with devices := [d], state := KVFState.READY }) := by
  simp [verification_request_accepted, hrole, hstate, hd]

/-! ## Claim C1 -/

/-- Claim C1: for every Initiator transaction in state `REQUESTED` whose
roster contains device `d`, `verification_request_accepted d` succeeds,
collapses the roster to exactly `[d]`, sets the state to `READY`, and
returns exactly (roster size before the call minus one) cancel messages,
one addressed to each distinct former roster member other than `d`, each
carrying the cancel code `"m.accepted"`. -/
theorem claim_C1 (t : KeyVerificationFramework) (ht : Reachable t)
    (hrole : t.we_requested_it = true)
    (hstate : t.state = KVFState.REQUESTED)
    (d : OlmDevice) (hd : d ∈ t.devices) :
    ∃ msgs : List ToDeviceMessage,
      verification_request_accepted t d =
        (Except.ok msgs, { t with devices := [d], state := KVFState.READY }) ∧
      msgs.length = t.devices.length - 1 ∧
      msgs.map (fun m => (m.recipient, m.recipient_device)) =
        (t.devices.filter (fun x => d ≠ x)).map
          (fun x => (x.user_id, x.device_id)) ∧
      (msgs.map (fun m => (m.recipient, m.recipient_device))).Nodup ∧
      ∀ m ∈ msgs, m.event_type = "m.key.verification.cancel" ∧
        ("code", ContentValue.str "m.accepted") ∈ m.content := by
  obtain ⟨-, -, -, hnodup⟩ := reachable_inv t ht
  refine ⟨_, verification_request_accepted_ok t d hrole hstate hd,
    ?_, ?_, ?_, ?_⟩
  · rw [List.length_map]
    exact length_filter_ne hnodup hd
  · rw [List.map_map]
    simp [Function.comp, _create_cancel_message, OlmDevice.id]
  · rw [List.map_map]
    have hmapeq :
        (t.devices.filter (fun x => d ≠ x)).map
          ((fun m : ToDeviceMessage => (m.recipient, m.recipient_device)) ∘
            (fun x => _create_cancel_message t x _user_accepted_reason)) =
        (t.devices.filter (fun x => d ≠ x)).map
          (fun x => (x.user_id, x.device_id)) := by
      simp [Function.comp, _create_cancel_message, OlmDevice.id]
    rw [hmapeq]
    apply List.Nodup.map
    · intro x y hxy
      cases x
      cases y
      simpa using hxy
    · exact hnodup.filter _
  · intro m hm
    simp only [List.mem_map] at hm
    obtain ⟨x, hx, rfl⟩ := hm
    exact ⟨rfl, by simp [_create_cancel_message, _user_accepted_reason]⟩

/-- Witness for C1 at the spec's literal scenario: Initiator `A1` with
roster `[B1, B2]` accepts from `B1`. -/
theorem claim_C1_witness :
    ∃ msgs : List ToDeviceMessage,
      verification_request_accepted tRequested2 devB1 =
        (Except.ok msgs,
         { tRequested2 with devices := [devB1], state := KVFState.READY }) ∧
      msgs.length = tRequested2.devices.length - 1 ∧
      msgs.map (fun m => (m.recipient, m.recipient_device)) =
        (tRequested2.devices.filter (fun x => devB1 ≠ x)).map
          (fun x => (x.user_id, x.device_id)) ∧
      (msgs.map (fun m => (m.recipient, m.recipient_device))).Nodup ∧
      ∀ m ∈ msgs, m.event_type = "m.key.verification.cancel" ∧
        ("code", ContentValue.str "m.accepted") ∈ m.content :=
  claim_C1 tRequested2 tRequested2_reachable (by decide) (by decide)
    devB1 (by decide)

/-! ## Claim C2 -/

/-- Claim C2: in every transaction reachable from creation by any sequence
of operations, the roster is non-empty whenever the state is `REQUESTED`,
and has exactly one element whenever the state is `READY` or `DONE`. -/
theorem claim_C2 (t : KeyVerificationFramework) (ht : Reachable t) :
    (t.state = KVFState.REQUESTED → t.devices ≠ []) ∧
    ((t.state = KVFState.READY ∨ t.state = KVFState.DONE) →
      t.devices.length = 1) := by
  obtain ⟨i1, i2, -, -⟩ := reachable_inv t ht
  exact ⟨i1, i2⟩

/-- Witness for C2 at a concrete reachable `READY` transaction. -/
theorem claim_C2_witness :
    (tReadyI.state = KVFState.REQUESTED → tReadyI.devices ≠ []) ∧
    ((tReadyI.state = KVFState.READY ∨ tReadyI.state = KVFState.DONE) →
      tReadyI.devices.length = 1) :=
  claim_C2 tReadyI tReadyI_reachable

/-! ## Claim C3 -/

instance {ε α : Type} [DecidableEq ε] [DecidableEq α] :
    DecidableEq (Except ε α) := fun x y =>
  match x, y with
  | Except.error a, Except.error b => decidable_of_iff (a = b) (by simp)
  | Except.error _, Except.ok _ => Decidable.isFalse (by simp)
  | Except.ok _, Except.error _ => Decidable.isFalse (by simp)
  | Except.ok a, Except.ok b => decidable_of_iff (a = b) (by simp)

theorem verification_done_ok (t : KeyVerificationFramework) (d : OlmDevice)
    (rest : List OlmDevice) (hstate : t.state = KVFState.READY)
    (hds : t.devices = d :: rest) :
    verification_done t =
      (Except.ok
        { event_type := "m.key.verification.done"
          recipient := d.user_id
          recipient_device := d.id
          content := [("transaction_id", ContentValue.str t.transaction_id)] },
       { t with state := KVFState.DONE }) := by
  simp [verification_done, hstate, hds]

/-- Counterexample to claim C3 as stated: in the reachable Initiator
transaction that has completed (`tDoneI`, state `DONE`), calling
`accept_verification_request` raises the role-check error, which is not
an `InvalidStateTransition` — so not every further operation on a `DONE`
transaction raises `InvalidStateTransition`. -/
theorem claim_C3_counterexample :
    tDoneI.state = KVFState.DONE ∧
    emitted tDoneI Op.accept =
      Except.error (KVFError.localProtocolError
        "Verification request was send by us, can\x27t accept offer.") ∧
    ¬ IsInvalidStateTransition (KVFError.localProtocolError
        "Verification request was send by us, can\x27t accept offer.") := by
  decide

/-- Claim C3 (amended): `verification_done` succeeds iff the state is
`READY`; on success the state becomes `DONE` and one done message is
emitted targeting the single confirmed roster device; `DONE` is terminal:
every further operation (including a second `verification_done`) fails
and leaves the transaction unchanged, with an `InvalidStateTransition`
error for operations permitted to the transaction's role (for operations
reserved for the other role the role check fires first, giving a
`RoleViolation`). -/
theorem claim_C3 (t : KeyVerificationFramework) (ht : Reachable t) :
    ((∃ m, (verification_done t).1 = Except.ok m) ↔
      t.state = KVFState.READY) ∧
    (t.state = KVFState.READY →
      ∃ d, t.devices = [d] ∧
        verification_done t =
          (Except.ok
            { event_type := "m.key.verification.done"
              recipient := d.user_id
              recipient_device := d.device_id
              content :=
                [("transaction_id", ContentValue.str t.transaction_id)] },
           { t with state := KVFState.DONE })) ∧
    (t.state = KVFState.DONE → ∀ op : Op,
      step t op = t ∧
      ∃ e, emitted t op = Except.error e ∧
        (IsInvalidStateTransition e ∨ IsRoleViolation e) ∧
        (opPermitted t.we_requested_it op = true →
          IsInvalidStateTransition e) ∧
        (opPermitted t.we_requested_it op = false →
          IsRoleViolation e)) := by
  obtain ⟨-, i2, -, -⟩ := reachable_inv t ht
  have hsingle : t.state = KVFState.READY → ∃ d, t.devices = [d] := by
    intro hready
    have hlen := i2 (Or.inl hready)
    rcases hds : t.devices with _ | ⟨d0, rest⟩
    · rw [hds] at hlen
      simp at hlen
    · rw [hds] at hlen
      simp at hlen
      exact ⟨d0, by rw [hlen]⟩
  refine ⟨?_, ?_, ?_⟩
  · constructor
    · rintro ⟨m, hm⟩
      by_contra hready
      rcases hst : t.state with _ | _ | _ | _ | _
      · simp [verification_done, hst] at hm
      · simp [verification_done, hst] at hm
      · exact hready hst
      · simp [verification_done, hst] at hm
      · simp [verification_done, hst] at hm
    · intro hready
      obtain ⟨d0, hds⟩ := hsingle hready
      exact ⟨_, by rw [verification_done_ok t d0 [] hready hds]⟩
  · intro hready
    obtain ⟨d0, hds⟩ := hsingle hready
    exact ⟨d0, hds, verification_done_ok t d0 [] hready hds⟩
  · intro hdone op
    cases op with
    | request d now =>
      by_cases hw : t.we_requested_it = false
      · constructor
        · simp [step, request_verification, hw]
        · refine ⟨KVFError.localProtocolError
            "Request was not started by us, can\x27t start another request.",
            ?_, ?_, ?_, ?_⟩
          · simp [emitted, request_verification, hw, Except.map]
          · right
            exact Or.inl rfl
          · intro hperm
            simp [opPermitted, hw] at hperm
          · intro _
            exact Or.inl rfl
      · constructor
        · simp [step, request_verification, hw, hdone]
        · refine ⟨KVFError.localProtocolError
            "Key verification request with the transaction id \x7btransaction_id\x7d already accepted.",
            ?_, ?_, ?_, ?_⟩
          · simp [emitted, request_verification, hw, hdone, Except.map]
          · left
            decide
          · intro _
            decide
          · intro hperm
            simp [opPermitted] at hperm
            exact absurd hperm hw
    | accept =>
      by_cases hw : t.we_requested_it = true
      · constructor
        · simp [step, accept_verification_request, hw]
        · refine ⟨KVFError.localProtocolError
            "Verification request was send by us, can\x27t accept offer.",
            ?_, ?_, ?_, ?_⟩
          · simp [emitted, accept_verification_request, hw, Except.map]
          · right
            exact Or.inr (Or.inl rfl)
          · intro hperm
            simp [opPermitted, hw] at hperm
          · intro _
            exact Or.inr (Or.inl rfl)
      · constructor
        · simp [step, accept_verification_request, hw, hdone]
        · refine ⟨KVFError.localProtocolError "Request already accepted.",
            ?_, ?_, ?_, ?_⟩
          · simp [emitted, accept_verification_request, hw, hdone, Except.map]
          · left
            decide
          · intro _
            decide
          · intro hperm
            simp [opPermitted] at hperm
            exact absurd hperm hw
    | peerAccepted d =>
      by_cases hw : t.we_requested_it = false
      · constructor
        · simp [step, verification_request_accepted, hw]
        · refine ⟨KVFError.localProtocolError
            ("Request was not initialized by us, but we received an unexpected ready message from device: "
              ++ d.device_id), ?_, ?_, ?_, ?_⟩
          · simp [emitted, verification_request_accepted, hw]
          · right
            exact Or.inr (Or.inr ⟨d.device_id, rfl⟩)
          · intro hperm
            simp [opPermitted, hw] at hperm
          · intro _
            exact Or.inr (Or.inr ⟨d.device_id, rfl⟩)
      · constructor
        · simp [step, verification_request_accepted, hw, hdone]
        · refine ⟨KVFError.localProtocolError "Request already accepted.",
            ?_, ?_, ?_, ?_⟩
          · simp [emitted, verification_request_accepted, hw, hdone]
          · left
            decide
          · intro _
            decide
          · intro hperm
            simp [opPermitted] at hperm
            exact absurd hperm hw
    | cancel d =>
      constructor
      · simp [step, cancel_verification, hdone]
      · refine ⟨KVFError.localProtocolError
          "Verification already done, can\x27t cancel it afterwards.",
          ?_, ?_, ?_, ?_⟩
        · simp [emitted, cancel_verification, hdone]
        · left
          decide
        · intro _
          decide
        · intro hperm
          simp [opPermitted] at hperm
    | peerCanceled =>
      constructor
      · simp [step, process_cancellation, hdone]
      · refine ⟨KVFError.localProtocolError
          "We cannot cancel finished key verifications.", ?_, ?_, ?_, ?_⟩
        · simp [emitted, process_cancellation, hdone]
        · left
          decide
        · intro _
          decide
        · intro hperm
          simp [opPermitted] at hperm
    | complete =>
      constructor
      · simp [step, verification_done, hdone]
      · refine ⟨KVFError.localProtocolError
          "Key verification already finished", ?_, ?_, ?_, ?_⟩
        · simp [emitted, verification_done, hdone, Except.map]
        · left
          decide
        · intro _
          decide
        · intro hperm
          simp [opPermitted] at hperm

/-- Witness for amended C3 at the completed Initiator transaction. -/
theorem claim_C3_witness :
    ((∃ m, (verification_done tDoneI).1 = Except.ok m) ↔
      tDoneI.state = KVFState.READY) ∧
    (tDoneI.state = KVFState.READY →
      ∃ d, tDoneI.devices = [d] ∧
        verification_done tDoneI =
          (Except.ok
            { event_type := "m.key.verification.done"
              recipient := d.user_id
              recipient_device := d.device_id
              content :=
                [("transaction_id", ContentValue.str tDoneI.transaction_id)] },
           { tDoneI with state := KVFState.DONE })) ∧
    (tDoneI.state = KVFState.DONE → ∀ op : Op,
      step tDoneI op = tDoneI ∧
      ∃ e, emitted tDoneI op = Except.error e ∧
        (IsInvalidStateTransition e ∨ IsRoleViolation e) ∧
        (opPermitted tDoneI.we_requested_it op = true →
          IsInvalidStateTransition e) ∧
        (opPermitted tDoneI.we_requested_it op = false →
          IsRoleViolation e)) :=
  claim_C3 tDoneI tDoneI_reachable

/-! ## Claim C4 -/

/-- Counterexample to claim C4 as stated: from state `CREATED` (before any
request was sent), `cancel_verification` succeeds — it does not raise
`InvalidStateTransition` — because the code only rejects `DONE` and
`CANCELED`. -/
theorem claim_C4_counterexample :
    tCreated.state = KVFState.CREATED ∧
    cancel_verification tCreated devA =
      (Except.ok [], { tCreated with state := KVFState.CANCELED }) :=
  ⟨rfl, rfl⟩

/-- Claim C4 (amended): `cancel_verification` is permitted from `CREATED`,
`REQUESTED` and `READY`; it fails with `InvalidStateTransition`, leaving
the transaction unchanged, exactly from the terminal states `CANCELED`
and `DONE`; on success it sets the state to `CANCELED` and emits a
user-cancel message to every remaining roster member. -/
theorem claim_C4 (t : KeyVerificationFramework) (d : OlmDevice) :
    ((t.state = KVFState.CANCELED ∨ t.state = KVFState.DONE) →
      ∃ e, cancel_verification t d = (Except.error e, t) ∧
        IsInvalidStateTransition e) ∧
    ((t.state ≠ KVFState.CANCELED ∧ t.state ≠ KVFState.DONE) →
      cancel_verification t d =
        (Except.ok
          (t.devices.map (fun x =>
            _create_cancel_message { t with state := KVFState.CANCELED } x
              _user_cancel_error)),
         { t with state := KVFState.CANCELED })) := by
  constructor
  · rintro (hc | hc)
    · refine ⟨KVFError.localProtocolError
        "Verification request already canceled.", ?_, ?_⟩
      · simp [cancel_verification, hc]
      · decide
    · refine ⟨KVFError.localProtocolError
        "Verification already done, can\x27t cancel it afterwards.", ?_, ?_⟩
      · simp [cancel_verification, hc]
      · decide
  · rintro ⟨h1, h2⟩
    simp [cancel_verification, h1, h2]

/-- Witness for amended C4 at the reachable two-device `REQUESTED`
transaction. -/
theorem claim_C4_witness :
    ((tRequested2.state = KVFState.CANCELED ∨
        tRequested2.state = KVFState.DONE) →
      ∃ e, cancel_verification tRequested2 devA = (Except.error e, tRequested2) ∧
        IsInvalidStateTransition e) ∧
    ((tRequested2.state ≠ KVFState.CANCELED ∧
        tRequested2.state ≠ KVFState.DONE) →
      cancel_verification tRequested2 devA =
        (Except.ok
          (tRequested2.devices.map (fun x =>
            _create_cancel_message
              { tRequested2 with state := KVFState.CANCELED } x
              _user_cancel_error)),
         { tRequested2 with state := KVFState.CANCELED })) :=
  claim_C4 tRequested2 devA

/-! ## Claim C5 -/

/-- Counterexample to claim C5 as stated: re-requesting `B1`, which is
already in the roster of `tRequested2`, does not silently append a
duplicate — it raises `LocalProtocolError("Already requested device
B1.")` and leaves the transaction unchanged. -/
theorem claim_C5_counterexample :
    devB1 ∈ tRequested2.devices ∧
    request_verification tRequested2 devB1 2 =
      (Except.error (KVFError.localProtocolError
        "Already requested device B1."), tRequested2) :=
  ⟨by decide, by decide⟩

/-- Claim C5 (amended): calling `request_verification` with a device
already present in the roster raises `LocalProtocolError` ("Already
requested device …") and leaves the transaction unchanged — duplicate
roster entries are rejected, not appended (device equality modelled from
the spec as `(user_id, device_id)`). -/
theorem claim_C5 (t : KeyVerificationFramework) (d : OlmDevice) (now : Nat)
    (hrole : t.we_requested_it = true)
    (hstate : t.state = KVFState.CREATED ∨ t.state = KVFState.REQUESTED)
    (hd : d ∈ t.devices) :
    request_verification t d now =
      (Except.error (KVFError.localProtocolError
        ("Already requested device " ++ d.device_id ++ ".")), t) := by
  rcases hstate with h | h <;> simp [request_verification, hrole, h, hd]

/-- Witness for amended C5: re-requesting `B1` on `tRequested2`. -/
theorem claim_C5_witness :
    request_verification tRequested2 devB1 2 =
      (Except.error (KVFError.localProtocolError
        ("Already requested device " ++ devB1.device_id ++ ".")),
       tRequested2) :=
  claim_C5 tRequested2 devB1 2 (by decide) (Or.inr (by decide)) (by decide)

/-! ## Claim C6 -/

/-- The single cancel message the broadcast-collapse at `tRequested2`
emits (to Bob's second device). -/
def c6msg : ToDeviceMessage :=
  { event_type := "m.key.verification.cancel"
    recipient := "@bob:example.org"
    recipient_device := "B2"
    content :=
      [("code", ContentValue.str "m.accepted"),
       ("reason", ContentValue.str
         "Key verification request was accepted by another device."),
       ("transaction_id", ContentValue.str "tid")] }

/-- Counterexample to claim C6 as stated: the roster-collapse cancel
emitted by `verification_request_accepted` carries the reason string
"Key verification request was accepted by another device." (with a
trailing period), which is not character-for-character equal to the
claimed constant "Key verification request was accepted by another
device". -/
theorem claim_C6_counterexample :
    emitted tRequested2 (Op.peerAccepted devB1) = Except.ok [c6msg] ∧
    ("reason", ContentValue.str
        "Key verification request was accepted by another device.") ∈
      c6msg.content ∧
    ContentValue.str
        "Key verification request was accepted by another device." ≠
      ContentValue.str
        "Key verification request was accepted by another device" :=
  ⟨by decide, by decide, by decide⟩

/-- Claim C6 (amended): every cancel message any operation ever emits
carries exactly one of the two fixed (code, reason) pairs —
`("m.user", "Canceled by user")` for `cancel_verification` /
`process_cancellation`, and `("m.accepted", "Key verification request was
accepted by another device.")` (with a trailing period) for the
roster-collapse fan-out of `verification_request_accepted`. -/
theorem claim_C6 (t : KeyVerificationFramework) (op : Op)
    (msgs : List ToDeviceMessage) (h : emitted t op = Except.ok msgs) :
    ∀ m ∈ msgs, m.event_type = "m.key.verification.cancel" →
      m.content =
        [("code", ContentValue.str "m.user"),
         ("reason", ContentValue.str "Canceled by user"),
         ("transaction_id", ContentValue.str t.transaction_id)] ∨
      m.content =
        [("code", ContentValue.str "m.accepted"),
         ("reason", ContentValue.str
           "Key verification request was accepted by another device."),
         ("transaction_id", ContentValue.str t.transaction_id)] := by
  cases op with
  | request d now =>
    simp only [emitted] at h
    unfold request_verification at h
    split_ifs at h with h1 h2 h3
    · simp [Except.map] at h
    · simp [Except.map] at h
    · simp [Except.map] at h
    · simp only [Except.map, Except.ok.injEq] at h
      subst h
      intro m hm hev
      simp only [List.mem_singleton] at hm
      subst hm
      simp at hev
  | accept =>
    simp only [emitted] at h
    unfold accept_verification_request at h
    split_ifs at h with h1 h2 h3
    · simp [Except.map] at h
    · simp [Except.map] at h
    · simp [Except.map] at h
    · rcases hds : t.devices with _ | ⟨d0, rest⟩
      · rw [hds] at h
        simp [Except.map] at h
      · rw [hds] at h
        simp only [Except.map, Except.ok.injEq] at h
        subst h
        intro m hm hev
        simp only [List.mem_singleton] at hm
        subst hm
        simp at hev
  | peerAccepted d =>
    simp only [emitted] at h
    unfold verification_request_accepted at h
    split_ifs at h with h1 h2 h3 h4 h5
    simp only [Except.ok.injEq] at h
    subst h
    intro m hm _
    simp only [List.mem_map] at hm
    obtain ⟨x, -, rfl⟩ := hm
    right
    simp [_create_cancel_message, _user_accepted_reason]
  | cancel d =>
    simp only [emitted] at h
    unfold cancel_verification at h
    split_ifs at h with h1 h2
    dsimp only at h
    simp only [Except.ok.injEq] at h
    subst h
    intro m hm _
    simp only [List.mem_map] at hm
    obtain ⟨x, -, rfl⟩ := hm
    left
    simp [_create_cancel_message, _user_cancel_error]
  | peerCanceled =>
    simp only [emitted] at h
    unfold process_cancellation at h
    split_ifs at h with h1 h2
    dsimp only at h
    split_ifs at h with h3
    · simp only [Except.ok.injEq] at h
      subst h
      intro m hm
      simp at hm
    · simp only [Except.ok.injEq] at h
      subst h
      intro m hm _
      simp only [List.mem_map] at hm
      obtain ⟨x, -, rfl⟩ := hm
      left
      simp [_create_cancel_message, _user_cancel_error]
  | complete =>
    simp only [emitted] at h
    unfold verification_done at h
    split_ifs at h with h1 h2 h3
    · simp [Except.map] at h
    · simp [Except.map] at h
    · simp [Except.map] at h
    · rcases hds : t.devices with _ | ⟨d0, rest⟩
      · rw [hds] at h
        simp [Except.map] at h
      · rw [hds] at h
        simp only [Except.map, Except.ok.injEq] at h
        subst h
        intro m hm hev
        simp only [List.mem_singleton] at hm
        subst hm
        simp at hev

/-- Witness for amended C6 at the concrete roster-collapse emission. -/
theorem claim_C6_witness :
    c6msg.content =
      [("code", ContentValue.str "m.user"),
       ("reason", ContentValue.str "Canceled by user"),
       ("transaction_id", ContentValue.str tRequested2.transaction_id)] ∨
    c6msg.content =
      [("code", ContentValue.str "m.accepted"),
       ("reason", ContentValue.str
         "Key verification request was accepted by another device."),
       ("transaction_id", ContentValue.str tRequested2.transaction_id)] :=
  claim_C6 tRequested2 (Op.peerAccepted devB1) [c6msg] (by decide) c6msg
    (by decide) (by decide)

/-! ## Claim C7 -/

/-- Claim C7: operations reserved for the other role fail with a
`RoleViolation` regardless of the current state, leaving the transaction
unchanged — a Responder calling `request_verification`, an Initiator
calling `accept_verification_request`, a Responder calling
`verification_request_accepted`.  The role check is decided before any
state check: the error is the role error whatever the state. -/
theorem claim_C7 (t : KeyVerificationFramework) (d : OlmDevice) (now : Nat) :
    (t.we_requested_it = false →
      request_verification t d now =
        (Except.error (KVFError.localProtocolError
          "Request was not started by us, can\x27t start another request."),
         t) ∧
      IsRoleViolation (KVFError.localProtocolError
        "Request was not started by us, can\x27t start another request.")) ∧
    (t.we_requested_it = true →
      accept_verification_request t =
        (Except.error (KVFError.localProtocolError
          "Verification request was send by us, can\x27t accept offer."),
         t) ∧
      IsRoleViolation (KVFError.localProtocolError
        "Verification request was send by us, can\x27t accept offer.")) ∧
    (t.we_requested_it = false →
      verification_request_accepted t d =
        (Except.error (KVFError.localProtocolError
          ("Request was not initialized by us, but we received an unexpected ready message from device: "
            ++ d.device_id)), t) ∧
      IsRoleViolation (KVFError.localProtocolError
        ("Request was not initialized by us, but we received an unexpected ready message from device: "
          ++ d.device_id))) := by
  refine ⟨fun hw => ⟨?_, ?_⟩, fun hw => ⟨?_, ?_⟩, fun hw => ⟨?_, ?_⟩⟩
  · simp [request_verification, hw]
  · exact Or.inl rfl
  · simp [accept_verification_request, hw]
  · exact Or.inr (Or.inl rfl)
  · simp [verification_request_accepted, hw]
  · exact Or.inr (Or.inr ⟨d.device_id, rfl⟩)

/-- Witness for C7 at the concrete Responder transaction `tResp`. -/
theorem claim_C7_witness :
    tResp.we_requested_it = false ∧
    ((tResp.we_requested_it = false →
      request_verification tResp devA 0 =
        (Except.error (KVFError.localProtocolError
          "Request was not started by us, can\x27t start another request."),
         tResp) ∧
      IsRoleViolation (KVFError.localProtocolError
        "Request was not started by us, can\x27t start another request.")) ∧
    (tResp.we_requested_it = true →
      accept_verification_request tResp =
        (Except.error (KVFError.localProtocolError
          "Verification request was send by us, can\x27t accept offer."),
         tResp) ∧
      IsRoleViolation (KVFError.localProtocolError
        "Verification request was send by us, can\x27t accept offer.")) ∧
    (tResp.we_requested_it = false →
      verification_request_accepted tResp devA =
        (Except.error (KVFError.localProtocolError
          ("Request was not initialized by us, but we received an unexpected ready message from device: "
            ++ devA.device_id)), tResp) ∧
      IsRoleViolation (KVFError.localProtocolError
        ("Request was not initialized by us, but we received an unexpected ready message from device: "
          ++ devA.device_id)))) :=
  ⟨by decide, claim_C7 tResp devA 0⟩

/-! ## Claim C8 -/

/-- Claim C8: atomicity on failure — whenever any of the six operations
returns an error, the transaction is left completely unchanged (state,
roster, role, own device and transaction id all keep their prior
values). -/
theorem claim_C8 (t : KeyVerificationFramework) (op : Op) (e : KVFError)
    (h : emitted t op = Except.error e) : step t op = t := by
  cases op with
  | request d now =>
    simp only [emitted] at h
    simp only [step]
    unfold request_verification at h ⊢
    split_ifs at h ⊢ with h1 h2 h3
    all_goals try rfl
    all_goals simp [Except.map] at h
  | accept =>
    simp only [emitted] at h
    simp only [step]
    unfold accept_verification_request at h ⊢
    split_ifs at h ⊢ with h1 h2 h3
    all_goals try rfl
    all_goals
      rcases hds : t.devices with _ | ⟨d0, rest⟩
    · rfl
    · rw [hds] at h
      simp [Except.map] at h
  | peerAccepted d =>
    simp only [emitted] at h
    simp only [step]
    unfold verification_request_accepted at h ⊢
    split_ifs at h ⊢ with h1 h2 h3 h4 h5
    all_goals rfl
  | cancel d =>
    simp only [emitted] at h
    simp only [step]
    unfold cancel_verification at h ⊢
    split_ifs at h ⊢ with h1 h2
    all_goals rfl
  | peerCanceled =>
    simp only [emitted] at h
    simp only [step]
    unfold process_cancellation at h ⊢
    split_ifs at h ⊢ with h1 h2
    all_goals try rfl
    all_goals dsimp only at h
    all_goals split_ifs at h with h3
  | complete =>
    simp only [emitted] at h
    simp only [step]
    unfold verification_done at h ⊢
    split_ifs at h ⊢ with h1 h2 h3
    all_goals try rfl
    all_goals
      rcases hds : t.devices with _ | ⟨d0, rest⟩
    · rfl
    · rw [hds] at h
      simp [Except.map] at h

/-- Witness for C8: an Initiator calling `accept_verification_request`
from `CREATED` raises and leaves the transaction unchanged. -/
theorem claim_C8_witness :
    emitted tCreated Op.accept =
      Except.error (KVFError.localProtocolError
        "Verification request was send by us, can\x27t accept offer.") ∧
    step tCreated Op.accept = tCreated :=
  ⟨by decide,
   claim_C8 tCreated Op.accept
     (KVFError.localProtocolError
       "Verification request was send by us, can\x27t accept offer.")
     (by decide)⟩

/-! ## Claim C9 -/

/-- Claim C9: the `devices[0]` indexing performed by
`accept_verification_request` and `verification_done` is always in bounds
for reachable transactions — no operation on a reachable transaction ever
fails with the (modelled) `IndexError`. -/
theorem claim_C9 (t : KeyVerificationFramework) (ht : Reachable t)
    (op : Op) : emitted t op ≠ Except.error KVFError.indexError := by
  obtain ⟨i1, i2, -, -⟩ := reachable_inv t ht
  cases op with
  | request d now =>
    simp only [emitted]
    unfold request_verification
    split_ifs <;> simp [Except.map]
  | accept =>
    simp only [emitted]
    unfold accept_verification_request
    split_ifs with h1 h2 h3
    · simp [Except.map]
    · simp [Except.map]
    · simp [Except.map]
    · have hne : t.devices ≠ [] := i1 (not_not.mp h3)
      rcases hds : t.devices with _ | ⟨d0, rest⟩
      · exact absurd hds hne
      · simp [Except.map]
  | peerAccepted d =>
    simp only [emitted]
    unfold verification_request_accepted
    split_ifs <;> simp
  | cancel d =>
    simp only [emitted]
    unfold cancel_verification
    split_ifs <;> simp
  | peerCanceled =>
    simp only [emitted]
    unfold process_cancellation
    split_ifs
    · simp
    · simp
    · dsimp only
      split_ifs <;> simp
  | complete =>
    simp only [emitted]
    unfold verification_done
    split_ifs with h1 h2 h3
    · simp [Except.map]
    · simp [Except.map]
    · simp [Except.map]
    · have hlen : t.devices.length = 1 := i2 (Or.inl (not_not.mp h3))
      rcases hds : t.devices with _ | ⟨d0, rest⟩
      · rw [hds] at hlen
        simp at hlen
      · simp [Except.map]

/-- Witness for C9: completing the reachable `READY` Initiator
transaction does not hit an out-of-bounds access. -/
theorem claim_C9_witness :
    emitted tReadyI Op.complete ≠ Except.error KVFError.indexError :=
  claim_C9 tReadyI tReadyI_reachable Op.complete

/-! ## Claim C10 -/

theorem not_isUnknownDevice (m : String)
    (h : m.data.take
        ("Received key verification ready from unknown device: " :
          String).data.length ≠
      ("Received key verification ready from unknown device: " :
        String).data) :
    ¬ IsUnknownDevice (KVFError.localProtocolError m) := by
  rintro ⟨s, hs⟩
  apply h
  have hdata := congrArg String.data hs
  rw [String.data_append] at hdata
  rw [hdata]
  exact List.take_left _ _

/-- Claim C10: the `other_device` argument of `cancel_verification` has
no effect — any two devices give identical results and post-states; the
emitted cancel messages are addressed exactly to the current roster
members; and a failing call is never an `UnknownDevice` error (it is an
`InvalidStateTransition` from a terminal state). -/
theorem claim_C10 (t : KeyVerificationFramework) (d1 d2 : OlmDevice) :
    cancel_verification t d1 = cancel_verification t d2 ∧
    (∀ e, (cancel_verification t d1).1 = Except.error e →
      ¬ IsUnknownDevice e ∧ IsInvalidStateTransition e) ∧
    (∀ msgs, (cancel_verification t d1).1 = Except.ok msgs →
      msgs.map (fun m => (m.recipient, m.recipient_device)) =
        t.devices.map (fun x => (x.user_id, x.device_id))) := by
  refine ⟨rfl, ?_, ?_⟩
  · intro e he
    unfold cancel_verification at he
    split_ifs at he with h1 h2
    · simp only [Except.error.injEq] at he
      subst he
      refine ⟨not_isUnknownDevice _ (by decide), by decide⟩
    · simp only [Except.error.injEq] at he
      subst he
      refine ⟨not_isUnknownDevice _ (by decide), by decide⟩
  · intro msgs hm
    unfold cancel_verification at hm
    split_ifs at hm with h1 h2
    dsimp only at hm
    simp only [Except.ok.injEq] at hm
    subst hm
    rw [List.map_map]
    simp [Function.comp, _create_cancel_message, OlmDevice.id]

/-- Witness for C10 at the two-device `REQUESTED` transaction with two
different (and roster-unrelated) argument devices. -/
theorem claim_C10_witness :
    cancel_verification tRequested2 devA =
      cancel_verification tRequested2 devB2 ∧
    (∀ e, (cancel_verification tRequested2 devA).1 = Except.error e →
      ¬ IsUnknownDevice e ∧ IsInvalidStateTransition e) ∧
    (∀ msgs, (cancel_verification tRequested2 devA).1 = Except.ok msgs →
      msgs.map (fun m => (m.recipient, m.recipient_device)) =
        tRequested2.devices.map (fun x => (x.user_id, x.device_id))) :=
  claim_C10 tRequested2 devA devB2
